import Mathlib

/-!
Verification of the background-agent example repository.

The development shallowly embeds the Python sources:

- src/models/background_message.py   (BackgroundMessage, a pydantic model)
- src/interfaces/background_agent.py (BackgroundAgent, the abstract base class)
- src/agents/example_agent.py        (SystemMonitorAgent)
- src/agents/notification_agent.py   (NotificationAgent)

Python runtime values that flow through message payloads are modelled by the
inductive type PyVal; Python dicts keyed by strings (message `data`) are
association lists with string keys; the agents' stores, which Python keys by
arbitrary runtime values, are association lists keyed by PyVal.  Python
operations that can raise (using an unhashable value as a dict key) are
modelled in the Except monad; the try/except wrapper of each process_message
is modelled by discarding the error and keeping the pre-fault state (every
handler faults, if at all, before its first store write).  Python string
primitives used by the agents (str.startswith, str.replace) are defined here
on the character lists underlying String, so that they are executable by the
kernel.  The Scheduler/Dispatcher runtime itself is not part of this
repository; where a claim concerns it, the relevant contract is modelled from
the specification and explicitly marked as such.
-/

/-- A Python runtime value as it can appear in a message payload: None, bool,
int, float, str, list or dict.  Floats only ever occur here as opaque stored
constants (timestamps, metric readings); no arithmetic on them is modelled,
so they are represented exactly as rationals. -/
inductive PyVal where
  | vnull
  | vbool (b : Bool)
  | vint (n : Int)
  | vfloat (q : Rat)
  | vstr (s : String)
  | vlist (xs : List PyVal)
  | vdict (kvs : List (String × PyVal))
deriving Repr

mutual

/-- Structural equality of Python values (the == used on payload values;
kept structurally recursive so the kernel can evaluate it). -/
def PyVal.beq : PyVal → PyVal → Bool
  | .vnull, .vnull => true
  | .vbool a, .vbool b => a == b
  | .vint a, .vint b => a == b
  | .vfloat a, .vfloat b => a == b
  | .vstr a, .vstr b => a == b
  | .vlist a, .vlist b => PyVal.beqList a b
  | .vdict a, .vdict b => PyVal.beqDict a b
  | _, _ => false

/-- Elementwise equality of lists of Python values. -/
def PyVal.beqList : List PyVal → List PyVal → Bool
  | [], [] => true
  | a :: as, b :: bs => PyVal.beq a b && PyVal.beqList as bs
  | _, _ => false

/-- Entrywise equality of string-keyed dicts of Python values. -/
def PyVal.beqDict : List (String × PyVal) → List (String × PyVal) → Bool
  | [], [] => true
  | (ka, va) :: as, (kb, vb) :: bs => ka == kb && PyVal.beq va vb && PyVal.beqDict as bs
  | _, _ => false

end

mutual

theorem PyVal.beq_iff : ∀ a b : PyVal, PyVal.beq a b = true ↔ a = b
  | .vnull, .vnull => by simp [PyVal.beq]
  | .vbool a, .vbool b => by simp [PyVal.beq]
  | .vint a, .vint b => by simp [PyVal.beq]
  | .vfloat a, .vfloat b => by simp [PyVal.beq]
  | .vstr a, .vstr b => by simp [PyVal.beq]
  | .vlist a, .vlist b => by
      simp only [PyVal.beq, PyVal.beqList_iff a b, PyVal.vlist.injEq]
  | .vdict a, .vdict b => by
      simp only [PyVal.beq, PyVal.beqDict_iff a b, PyVal.vdict.injEq]
  | .vnull, .vbool _ => by simp [PyVal.beq]
  | .vnull, .vint _ => by simp [PyVal.beq]
  | .vnull, .vfloat _ => by simp [PyVal.beq]
  | .vnull, .vstr _ => by simp [PyVal.beq]
  | .vnull, .vlist _ => by simp [PyVal.beq]
  | .vnull, .vdict _ => by simp [PyVal.beq]
  | .vbool _, .vnull => by simp [PyVal.beq]
  | .vbool _, .vint _ => by simp [PyVal.beq]
  | .vbool _, .vfloat _ => by simp [PyVal.beq]
  | .vbool _, .vstr _ => by simp [PyVal.beq]
  | .vbool _, .vlist _ => by simp [PyVal.beq]
  | .vbool _, .vdict _ => by simp [PyVal.beq]
  | .vint _, .vnull => by simp [PyVal.beq]
  | .vint _, .vbool _ => by simp [PyVal.beq]
  | .vint _, .vfloat _ => by simp [PyVal.beq]
  | .vint _, .vstr _ => by simp [PyVal.beq]
  | .vint _, .vlist _ => by simp [PyVal.beq]
  | .vint _, .vdict _ => by simp [PyVal.beq]
  | .vfloat _, .vnull => by simp [PyVal.beq]
  | .vfloat _, .vbool _ => by simp [PyVal.beq]
  | .vfloat _, .vint _ => by simp [PyVal.beq]
  | .vfloat _, .vstr _ => by simp [PyVal.beq]
  | .vfloat _, .vlist _ => by simp [PyVal.beq]
  | .vfloat _, .vdict _ => by simp [PyVal.beq]
  | .vstr _, .vnull => by simp [PyVal.beq]
  | .vstr _, .vbool _ => by simp [PyVal.beq]
  | .vstr _, .vint _ => by simp [PyVal.beq]
  | .vstr _, .vfloat _ => by simp [PyVal.beq]
  | .vstr _, .vlist _ => by simp [PyVal.beq]
  | .vstr _, .vdict _ => by simp [PyVal.beq]
  | .vlist _, .vnull => by simp [PyVal.beq]
  | .vlist _, .vbool _ => by simp [PyVal.beq]
  | .vlist _, .vint _ => by simp [PyVal.beq]
  | .vlist _, .vfloat _ => by simp [PyVal.beq]
  | .vlist _, .vstr _ => by simp [PyVal.beq]
  | .vlist _, .vdict _ => by simp [PyVal.beq]
  | .vdict _, .vnull => by simp [PyVal.beq]
  | .vdict _, .vbool _ => by simp [PyVal.beq]
  | .vdict _, .vint _ => by simp [PyVal.beq]
  | .vdict _, .vfloat _ => by simp [PyVal.beq]
  | .vdict _, .vstr _ => by simp [PyVal.beq]
  | .vdict _, .vlist _ => by simp [PyVal.beq]

theorem PyVal.beqList_iff : ∀ as bs : List PyVal, PyVal.beqList as bs = true ↔ as = bs
  | [], [] => by simp [PyVal.beqList]
  | [], _ :: _ => by simp [PyVal.beqList]
  | _ :: _, [] => by simp [PyVal.beqList]
  | a :: as, b :: bs => by
      simp only [PyVal.beqList, Bool.and_eq_true, PyVal.beq_iff a b,
        PyVal.beqList_iff as bs, List.cons.injEq]

theorem PyVal.beqDict_iff :
    ∀ as bs : List (String × PyVal), PyVal.beqDict as bs = true ↔ as = bs
  | [], [] => by simp [PyVal.beqDict]
  | [], _ :: _ => by simp [PyVal.beqDict]
  | _ :: _, [] => by simp [PyVal.beqDict]
  | (ka, va) :: as, (kb, vb) :: bs => by
      simp only [PyVal.beqDict, Bool.and_eq_true, beq_iff_eq, PyVal.beq_iff va vb,
        PyVal.beqDict_iff as bs, List.cons.injEq, Prod.mk.injEq, and_assoc]

end

instance : DecidableEq PyVal := fun a b =>
  decidable_of_iff (PyVal.beq a b = true) (PyVal.beq_iff a b)

/-- Python truthiness: the test performed by every `if not x:` guard in the
agents.  None and False are falsy, numbers are falsy exactly at zero, and
strings, lists and dicts are falsy exactly when empty. -/
def PyVal.truthy : PyVal → Bool
  | .vnull => false
  | .vbool b => b
  | .vint n => n != 0
  | .vfloat q => q != 0
  | .vstr s => !s.isEmpty
  | .vlist xs => !xs.isEmpty
  | .vdict kvs => !kvs.isEmpty

/-- Python hashability: lists and dicts are unhashable; using one as the key
of a dict operation raises TypeError. -/
def PyVal.hashable : PyVal → Bool
  | .vlist _ => false
  | .vdict _ => false
  | _ => true

/-- The Python exceptions the embedded code can raise. -/
inductive PyErr where
  | typeError
deriving DecidableEq, Repr

/-- Python str.startswith: character-list prefix test (str is a sequence of
code points, so List Char is its exact carrier). -/
def pyStartswith (s pre : String) : Bool :=
  pre.data.isPrefixOf s.data

/-- Fuel-driven worker for pyReplace, structurally recursive so that the
kernel can evaluate it; the fuel is instantiated with the length of the
scanned string, which bounds the number of steps since `old` is nonempty. -/
def listReplaceFuel (new : List Char) : Nat → List Char → List Char → List Char
  | 0, s, _ => s
  | _ + 1, [], _ => []
  | fuel + 1, c :: rest, old =>
      if old.isPrefixOf (c :: rest) then
        new ++ listReplaceFuel new fuel ((c :: rest).drop old.length) old
      else
        c :: listReplaceFuel new fuel rest old

/-- Python str.replace: replace every non-overlapping occurrence of `old` by
`new`, scanning left to right; with an empty `old`, Python interleaves `new`
around every character. -/
def pyReplace (s old new : String) : String :=
  match old.data with
  | [] => ⟨new.data ++ s.data.flatMap fun c => c :: new.data⟩
  | oc :: ocs => ⟨listReplaceFuel new.data s.data.length s.data (oc :: ocs)⟩

/-- A Python dict with string keys: the `data` payload of a message
(Dict[str, Any]). -/
abbrev PyDict := List (String × PyVal)

/-- First binding of key `k`, if any (Python `k in d` / lookup). -/
def pyDictFind : PyDict → String → Option PyVal
  | [], _ => none
  | (k1, v1) :: rest, k => if k1 = k then some v1 else pyDictFind rest k

/-- Python d.get(k, dflt). -/
def pyDictGetD (d : PyDict) (k : String) (dflt : PyVal) : PyVal :=
  match pyDictFind d k with
  | some v => v
  | none => dflt

/-- Python d.get(k), defaulting to None. -/
def pyDictGet (d : PyDict) (k : String) : PyVal :=
  pyDictGetD d k .vnull

/-- An insertion-ordered association list keyed by Python runtime values:
the carrier of the agents' stores (_notifications, _user_sessions), which
Python keys by whatever hashable value the payload supplied. -/
def alistLookup {α : Type} : List (PyVal × α) → PyVal → Option α
  | [], _ => none
  | p :: rest, k => if p.1 = k then some p.2 else alistLookup rest k

/-- Replace the value stored under key `k` by `f` of it (Python mutating the
object found under `k`); a missing key leaves the list unchanged. -/
def alistUpd {α : Type} : List (PyVal × α) → PyVal → (α → α) → List (PyVal × α)
  | [], _, _ => []
  | p :: rest, k, f => if p.1 = k then (p.1, f p.2) :: rest else p :: alistUpd rest k f

/-- Python d[k] = v: overwrite the existing binding, else append a new one. -/
def alistSet {α : Type} : List (PyVal × α) → PyVal → α → List (PyVal × α)
  | [], k, v => [(k, v)]
  | p :: rest, k, v => if p.1 = k then (p.1, v) :: rest else p :: alistSet rest k v

theorem alistLookup_upd_self {α : Type} (m : List (PyVal × α)) (u : PyVal) (f : α → α) :
    alistLookup (alistUpd m u f) u = (alistLookup m u).map f := by
  induction m with
  | nil => rfl
  | cons p rest ih =>
      by_cases hp : p.1 = u
      · simp [alistUpd, alistLookup, hp]
      · simp [alistUpd, alistLookup, hp, ih]

theorem alistLookup_upd_ne {α : Type} (m : List (PyVal × α)) (u v : PyVal) (f : α → α)
    (h : v ≠ u) : alistLookup (alistUpd m u f) v = alistLookup m v := by
  have huv : ¬u = v := fun hc => h hc.symm
  induction m with
  | nil => rfl
  | cons p rest ih =>
      by_cases hp : p.1 = u
      · simp [alistUpd, alistLookup, hp, huv]
      · by_cases hv : p.1 = v
        · simp [alistUpd, alistLookup, hp, hv, h]
        · simp [alistUpd, alistLookup, hp, hv, ih]

theorem alistLookup_append_ne {α : Type} (m : List (PyVal × α)) (u v : PyVal) (x : α)
    (h : v ≠ u) : alistLookup (m ++ [(u, x)]) v = alistLookup m v := by
  have huv : ¬u = v := fun hc => h hc.symm
  induction m with
  | nil => simp [alistLookup, huv]
  | cons p rest ih =>
      by_cases hv : p.1 = v
      · simp [alistLookup, hv]
      · simp [alistLookup, hv, ih]

/-- BackgroundMessage (src/models/background_message.py), the pydantic model
carried on the bus: a routing type, an optional payload dict, a wall-clock
timestamp and a sender tag.  The timestamp default time.time() is the `now`
argument of `validate`. -/
structure BackgroundMessage where
  message_type : String
  data : Option PyDict
  timestamp : PyVal
  sender : String
deriving DecidableEq, Repr

/-- Pydantic construction of a BackgroundMessage.  An argument `none` means
the caller omitted the field; message_type is declared with Field(...), i.e.
required, so validation fails exactly when it is omitted.  No further
constraint is placed on its value.  data defaults to None, timestamp to the
current clock `now`, sender to "system". -/
def BackgroundMessage.validate (message_type : Option String)
    (data : Option (Option PyDict)) (timestamp : Option PyVal)
    (sender : Option String) (now : PyVal) : Except String BackgroundMessage :=
  match message_type with
  | none => .error "field required: message_type"
  | some mt =>
      .ok { message_type := mt
            data := data.getD none
            timestamp := timestamp.getD now
            sender := sender.getD "system" }

/-- The state every BackgroundAgent carries
(src/interfaces/background_agent.py __init__): a session id, an agent type
tag, an optional periodic interval in seconds, the set of subscribed message
patterns, and the running flag.  Python's set of strings is a Finset. -/
structure BackgroundAgentBase where
  session_id : String
  agent_type : String
  interval : Option Rat
  subscribed_messages : Finset String
  is_running : Bool
deriving DecidableEq

/-- BackgroundAgent.__init__: subscriptions start empty, the running flag
false. -/
def BackgroundAgentBase.init (session_id agent_type : String)
    (interval : Option Rat) : BackgroundAgentBase :=
  { session_id := session_id
    agent_type := agent_type
    interval := interval
    subscribed_messages := ∅
    is_running := false }

/-- BackgroundAgent.subscribe_to: Python set.add of the pattern. -/
def BackgroundAgentBase.subscribe_to (a : BackgroundAgentBase)
    (message_type : String) : BackgroundAgentBase :=
  { a with subscribed_messages := insert message_type a.subscribed_messages }

/-- One notification record.  The dict literal built by _create_notification
always carries exactly these keys; "read" and "dismissed" start False and are
the only fields later mutated (by _list_notifications and
_dismiss_notification respectively).  The Python key "type" is the field
ntype. -/
structure Notification where
  id : PyVal
  title : PyVal
  message : PyVal
  ntype : PyVal
  created_at : PyVal
  read : Bool
  dismissed : Bool
deriving DecidableEq, Repr

/-- NotificationAgent (src/agents/notification_agent.py): the base-class
fields plus the two private stores, _notifications (user id, taken verbatim
from payloads, to that user's notification list) and _user_sessions (user id
to active flag). -/
structure NotificationAgentState extends BackgroundAgentBase where
  notifications : List (PyVal × List Notification)
  user_sessions : List (PyVal × Bool)
deriving DecidableEq

/-- NotificationAgent.__init__: no interval (purely message-driven), four
subscriptions, empty stores. -/
def NotificationAgentState.init (session_id : String) : NotificationAgentState :=
  let base := BackgroundAgentBase.init session_id "notification_manager" none
  let base := base.subscribe_to "notification.create"
  let base := base.subscribe_to "notification.dismiss"
  let base := base.subscribe_to "notification.list"
  let base := base.subscribe_to "user.session.*"
  { toBackgroundAgentBase := base
    notifications := []
    user_sessions := [] }

/-- NotificationAgent.process: the periodic hook body is `pass`; the agent is
purely message-driven. -/
def NotificationAgentState.process (st : NotificationAgentState) :
    NotificationAgentState :=
  st

/-- NotificationAgent._create_notification.  `now` is the event-loop clock
asyncio.get_event_loop().time(), the default of created_at.  Python evaluates
the defaulted id expression f"notif_{len(self._notifications.get(user_id,
[]))}" eagerly, so an unhashable user id raises TypeError there, before any
write.  The closing self._user_sessions.get(user_id, False) only selects a
log line and has no state effect. -/
def createNotification (st : NotificationAgentState) (msg : BackgroundMessage)
    (now : PyVal) : Except PyErr NotificationAgentState :=
  match msg.data with
  | none => .ok st
  | some d =>
    if d.isEmpty then .ok st
    else
      let user_id := pyDictGet d "user_id"
      if !user_id.truthy then .ok st
      else if !user_id.hashable then .error .typeError
      else
        let existing := (alistLookup st.notifications user_id).getD []
        let notif : Notification :=
          { id := pyDictGetD d "id" (.vstr ("notif_" ++ toString existing.length))
            title := pyDictGetD d "title" (.vstr "Notification")
            message := pyDictGetD d "message" (.vstr "")
            ntype := pyDictGetD d "type" (.vstr "info")
            created_at := pyDictGetD d "created_at" now
            read := false
            dismissed := false }
        let notifs :=
          match alistLookup st.notifications user_id with
          | some _ => st.notifications
          | none => st.notifications ++ [(user_id, [])]
        .ok { st with notifications := alistUpd notifs user_id (fun l => l ++ [notif]) }

/-- The loop of _dismiss_notification: walk the user's list and set the
dismissed flag of the first notification whose id equals the requested one;
the loop breaks there, so later notifications (even with the same id) are
untouched. -/
def dismissFirst : List Notification → PyVal → List Notification
  | [], _ => []
  | n :: rest, nid =>
      if n.id = nid then { n with dismissed := true } :: rest
      else n :: dismissFirst rest nid

/-- NotificationAgent._dismiss_notification. -/
def dismissNotification (st : NotificationAgentState) (msg : BackgroundMessage) :
    Except PyErr NotificationAgentState :=
  match msg.data with
  | none => .ok st
  | some d =>
    if d.isEmpty then .ok st
    else
      let user_id := pyDictGet d "user_id"
      let notification_id := pyDictGet d "notification_id"
      if !user_id.truthy || !notification_id.truthy then .ok st
      else if !user_id.hashable then .error .typeError
      else
        match alistLookup st.notifications user_id with
        | none => .ok st
        | some _ =>
            let updated := alistUpd st.notifications user_id
              fun l => dismissFirst l notification_id
            .ok { st with notifications := updated }

/-- The marking pass of _list_notifications: with include_dismissed truthy
every stored notification of the user is marked read; otherwise the list
comprehension selects the non-dismissed ones (by reference, so the store is
written through) and exactly those are marked read. -/
def markRead (include_dismissed : Bool) (l : List Notification) : List Notification :=
  if include_dismissed then l.map fun n => { n with read := true }
  else l.map fun n => if n.dismissed then n else { n with read := true }

/-- NotificationAgent._list_notifications.  A user id absent from the store
yields a fresh empty list, so nothing is written. -/
def listNotifications (st : NotificationAgentState) (msg : BackgroundMessage) :
    Except PyErr NotificationAgentState :=
  match msg.data with
  | none => .ok st
  | some d =>
    if d.isEmpty then .ok st
    else
      let user_id := pyDictGet d "user_id"
      let include_dismissed := pyDictGetD d "include_dismissed" (.vbool false)
      if !user_id.truthy then .ok st
      else if !user_id.hashable then .error .typeError
      else
        match alistLookup st.notifications user_id with
        | none => .ok st
        | some _ =>
            let updated := alistUpd st.notifications user_id
              (markRead include_dismissed.truthy)
            .ok { st with notifications := updated }

/-- NotificationAgent._handle_session_start: mark the user active; the
pending-notification scan afterwards only logs. -/
def handleSessionStart (st : NotificationAgentState) (msg : BackgroundMessage) :
    Except PyErr NotificationAgentState :=
  match msg.data with
  | none => .ok st
  | some d =>
    if d.isEmpty then .ok st
    else
      let user_id := pyDictGet d "user_id"
      if !user_id.truthy then .ok st
      else if !user_id.hashable then .error .typeError
      else .ok { st with user_sessions := alistSet st.user_sessions user_id true }

/-- NotificationAgent._handle_session_end: mark the user inactive. -/
def handleSessionEnd (st : NotificationAgentState) (msg : BackgroundMessage) :
    Except PyErr NotificationAgentState :=
  match msg.data with
  | none => .ok st
  | some d =>
    if d.isEmpty then .ok st
    else
      let user_id := pyDictGet d "user_id"
      if !user_id.truthy then .ok st
      else if !user_id.hashable then .error .typeError
      else .ok { st with user_sessions := alistSet st.user_sessions user_id false }

/-- The body of NotificationAgent.process_message (the code inside its try
block): dispatch on the message type; an unrecognised type falls through the
elif chain and does nothing. -/
def NotificationAgentState.processMessageE (st : NotificationAgentState)
    (msg : BackgroundMessage) (now : PyVal) : Except PyErr NotificationAgentState :=
  if msg.message_type = "notification.create" then createNotification st msg now
  else if msg.message_type = "notification.dismiss" then dismissNotification st msg
  else if msg.message_type = "notification.list" then listNotifications st msg
  else if msg.message_type = "user.session.start" then handleSessionStart st msg
  else if msg.message_type = "user.session.end" then handleSessionEnd st msg
  else .ok st

/-- NotificationAgent.process_message as its caller sees it: the surrounding
try/except logs any exception and returns normally.  Every handler faults, if
at all, before its first store write, so the kept state is the entry state. -/
def NotificationAgentState.processMessageCaught (st : NotificationAgentState)
    (msg : BackgroundMessage) (now : PyVal) : Except PyErr NotificationAgentState :=
  match st.processMessageE msg now with
  | .ok s => .ok s
  | .error _ => .ok st

/-- The state after process_message returns. -/
def NotificationAgentState.processMessage (st : NotificationAgentState)
    (msg : BackgroundMessage) (now : PyVal) : NotificationAgentState :=
  match st.processMessageE msg now with
  | .ok s => s
  | .error _ => st

/-- The _system_stats dict of SystemMonitorAgent: created with exactly these
four keys and only ever read or written at them.  cpu_usage, memory_usage and
uptime hold float readings that process_message only reads for logging; they
are kept as opaque values.  active_users is the Python int the user-action
handler does arithmetic on. -/
structure SystemStats where
  cpu_usage : PyVal
  memory_usage : PyVal
  uptime : PyVal
  active_users : Int
deriving DecidableEq, Repr

/-- SystemMonitorAgent (src/agents/example_agent.py): base fields plus the
last periodic check time and the stats dict. -/
structure SystemMonitorAgentState extends BackgroundAgentBase where
  last_check_time : PyVal
  system_stats : SystemStats
deriving DecidableEq

/-- SystemMonitorAgent.__init__: 60-second interval, three subscriptions,
zeroed stats; `now` is time.time() at construction. -/
def SystemMonitorAgentState.init (session_id : String) (now : PyVal) :
    SystemMonitorAgentState :=
  let base := BackgroundAgentBase.init session_id "system_monitor" (some 60)
  let base := base.subscribe_to "system.status.request"
  let base := base.subscribe_to "system.resource.request"
  let base := base.subscribe_to "user.action.*"
  { toBackgroundAgentBase := base
    last_check_time := now
    system_stats :=
      { cpu_usage := .vfloat 0
        memory_usage := .vfloat 0
        uptime := .vint 0
        active_users := 0 } }

/-- Which branch of the if/elif chain in SystemMonitorAgent.process_message a
message type selects. -/
inductive SMBranch where
  | statusRequest
  | resourceRequest
  | userAction
  | unhandled
deriving DecidableEq, Repr

/-- The dispatch condition chain of SystemMonitorAgent.process_message: two
exact comparisons, then message_type.startswith("user.action."). -/
def smBranch (message_type : String) : SMBranch :=
  if message_type = "system.status.request" then .statusRequest
  else if message_type = "system.resource.request" then .resourceRequest
  else if pyStartswith message_type "user.action." then .userAction
  else .unhandled

/-- SystemMonitorAgent._handle_user_action: strip the "user.action." text
from the message type (str.replace, hence every occurrence), then adjust the
active-user count: login increments, logout decrements clamped at zero via
max(0, ...), anything else only logs. -/
def handleUserAction (st : SystemMonitorAgentState) (msg : BackgroundMessage) :
    SystemMonitorAgentState :=
  let action_type := pyReplace msg.message_type "user.action." ""
  if action_type = "login" then
    { st with system_stats :=
        { st.system_stats with active_users := st.system_stats.active_users + 1 } }
  else if action_type = "logout" then
    { st with system_stats :=
        { st.system_stats with
            active_users := max 0 (st.system_stats.active_users - 1) } }
  else st

/-- The body of SystemMonitorAgent.process_message (inside its try block).
_handle_status_request and _handle_resource_request only log: they read the
stats fields and message data but write nothing, so they keep the state. -/
def SystemMonitorAgentState.processMessageE (st : SystemMonitorAgentState)
    (msg : BackgroundMessage) : Except PyErr SystemMonitorAgentState :=
  match smBranch msg.message_type with
  | .statusRequest => .ok st
  | .resourceRequest => .ok st
  | .userAction => .ok (handleUserAction st msg)
  | .unhandled => .ok st

/-- SystemMonitorAgent.process_message as its caller sees it: the try/except
logs any exception and returns normally. -/
def SystemMonitorAgentState.processMessageCaught (st : SystemMonitorAgentState)
    (msg : BackgroundMessage) : Except PyErr SystemMonitorAgentState :=
  match st.processMessageE msg with
  | .ok s => .ok s
  | .error _ => .ok st

/-- The state after SystemMonitorAgent.process_message returns. -/
def SystemMonitorAgentState.processMessage (st : SystemMonitorAgentState)
    (msg : BackgroundMessage) : SystemMonitorAgentState :=
  match st.processMessageE msg with
  | .ok s => s
  | .error _ => st

/-- Modelled from the spec: the Scheduler and Dispatcher of the Background
Agent Runtime are not part of this repository (the agents only carry the
_is_running flag the runtime drives), so the per-agent serialization contract
of section 5 is modelled as a labelled transition system.  A state counts the
in-flight hook invocations of each agent, identified by its agent-type
string. -/
structure RuntimeSchedState where
  running : String → Nat

/-- Modelled from the spec: the two kinds of hook invocation the runtime
hands to an agent. -/
inductive HookKind where
  | periodic
  | message
deriving DecidableEq, Repr

/-- Modelled from the spec: runtime transitions.  A hook invocation of either
kind may start for an agent only when no invocation of that same agent is in
flight (the per-agent serialization primitive); finishing an in-flight
invocation decrements its count.  Invocations of different agents interleave
freely. -/
inductive RuntimeStepRel : RuntimeSchedState → RuntimeSchedState → Prop where
  | start (k : HookKind) (a : String) (s : RuntimeSchedState)
      (h : s.running a = 0) :
      RuntimeStepRel s ⟨fun x => if x = a then 1 else s.running x⟩
  | finish (a : String) (s : RuntimeSchedState) (h : 0 < s.running a) :
      RuntimeStepRel s ⟨fun x => if x = a then s.running a - 1 else s.running x⟩

/-- Modelled from the spec: at startup no hook invocation is in flight. -/
def RuntimeSchedState.start : RuntimeSchedState :=
  ⟨fun _ => 0⟩

/-- Modelled from the spec: the states the runtime can reach from startup. -/
inductive RuntimeReachable : RuntimeSchedState → Prop where
  | start : RuntimeReachable RuntimeSchedState.start
  | step {s t : RuntimeSchedState} :
      RuntimeReachable s → RuntimeStepRel s t → RuntimeReachable t

/-- C1 counterexample: constructing a BackgroundMessage whose message_type is
the empty string is not rejected — pydantic validation succeeds and yields a
message whose message_type is empty. -/
theorem empty_message_type_accepted :
    BackgroundMessage.validate (some "") none none none PyVal.vnull =
      Except.ok { message_type := "", data := none, timestamp := PyVal.vnull, sender := "system" } :=
  rfl

/-- C1 (amended): message_type is required — construction without it fails
validation — but no non-emptiness check exists: any provided string, the
empty string included, is accepted verbatim as the message_type. -/
theorem message_type_required_but_empty_allowed :
    (∀ (data : Option (Option PyDict)) (timestamp : Option PyVal)
        (sender : Option String) (now : PyVal),
        BackgroundMessage.validate none data timestamp sender now =
          Except.error "field required: message_type")
    ∧ (∀ (mt : String) (data : Option (Option PyDict)) (timestamp : Option PyVal)
        (sender : Option String) (now : PyVal),
        ∃ m, BackgroundMessage.validate (some mt) data timestamp sender now =
            Except.ok m ∧ m.message_type = mt) :=
  ⟨fun _ _ _ _ => rfl, fun _ _ _ _ _ => ⟨_, rfl, rfl⟩⟩

/-- C2: SystemMonitorAgent's dispatch takes the user-action branch for
exactly the message types that start with "user.action." — so
"user.action.login" and "user.action.logout" are handled as user actions
while "user.action" (the bare prefix) and "user.actionx.foo" (a raw
substring near-miss) are not. -/
theorem user_action_wildcard_segment_boundary :
    (∀ t : String,
        smBranch t = SMBranch.userAction ↔ pyStartswith t "user.action." = true)
    ∧ smBranch "user.action.login" = SMBranch.userAction
    ∧ smBranch "user.action.logout" = SMBranch.userAction
    ∧ smBranch "user.action" ≠ SMBranch.userAction
    ∧ smBranch "user.actionx.foo" ≠ SMBranch.userAction := by
  refine ⟨fun t => ?_, by decide, by decide, by decide, by decide⟩
  unfold smBranch
  by_cases h1 : t = "system.status.request"
  · subst h1; decide
  · by_cases h2 : t = "system.resource.request"
    · subst h2; decide
    · rw [if_neg h1, if_neg h2]
      by_cases h3 : pyStartswith t "user.action." = true
      · simp [h3]
      · simp [h3]

/-- Witness for C2 at the login message type. -/
theorem user_action_wildcard_segment_boundary_witness :
    pyStartswith "user.action.login" "user.action." = true ∧
    smBranch "user.action.login" = SMBranch.userAction :=
  ⟨by decide,
   (user_action_wildcard_segment_boundary.1 "user.action.login").mpr (by decide)⟩

/-- C3: per-agent single flight — in every state the runtime can reach, at
most one hook invocation (periodic tick or message delivery) of any given
agent is in flight, so the scheduler never starts a second invocation of an
agent while a previous one is still running.  (Scheduler modelled from the
spec; see RuntimeStepRel.) -/
theorem per_agent_single_flight (s : RuntimeSchedState)
    (h : RuntimeReachable s) (a : String) : s.running a ≤ 1 := by
  induction h with
  | start => exact Nat.zero_le 1
  | step hr hstep ih =>
      cases hstep with
      | start k b t hb =>
          by_cases hx : a = b
          · simp [hx]
          · simpa [hx] using ih
      | finish b t hb =>
          by_cases hx : a = b
          · subst hx
            simpa using le_trans (Nat.sub_le _ 1) ih
          · simpa [hx] using ih

/-- Witness for C3 at the startup state and the system_monitor agent. -/
theorem per_agent_single_flight_witness :
    RuntimeReachable RuntimeSchedState.start ∧
    RuntimeSchedState.start.running "system_monitor" ≤ 1 :=
  ⟨RuntimeReachable.start,
   per_agent_single_flight RuntimeSchedState.start RuntimeReachable.start "system_monitor"⟩

theorem foldl_subscribe_to (a : BackgroundAgentBase) (l : List String) :
    (l.foldl BackgroundAgentBase.subscribe_to a).subscribed_messages =
      a.subscribed_messages ∪ l.toFinset := by
  induction l generalizing a with
  | nil => simp
  | cons s rest ih =>
      simp [List.foldl_cons, ih, BackgroundAgentBase.subscribe_to,
        Finset.insert_union, Finset.union_insert]

/-- C6: subscription declarations form a set — starting from construction
(empty set), any sequence of subscribe_to calls leaves exactly the set of
distinct patterns passed; re-subscribing an already-present pattern is a
no-op, and permuting the calls yields the same subscription set. -/
theorem subscriptions_form_a_set :
    (∀ (sid aty : String) (itv : Option Rat) (l : List String),
        (l.foldl BackgroundAgentBase.subscribe_to
            (BackgroundAgentBase.init sid aty itv)).subscribed_messages = l.toFinset)
    ∧ (∀ (a : BackgroundAgentBase) (s : String),
        s ∈ a.subscribed_messages → a.subscribe_to s = a)
    ∧ (∀ (a : BackgroundAgentBase) (l l2 : List String), l.Perm l2 →
        (l.foldl BackgroundAgentBase.subscribe_to a).subscribed_messages =
          (l2.foldl BackgroundAgentBase.subscribe_to a).subscribed_messages) := by
  refine ⟨fun sid aty itv l => ?_, fun a s h => ?_, fun a l l2 hp => ?_⟩
  · rw [foldl_subscribe_to]
    simp [BackgroundAgentBase.init]
  · show { a with subscribed_messages := insert s a.subscribed_messages } = a
    rw [Finset.insert_eq_self.mpr h]
  · rw [foldl_subscribe_to, foldl_subscribe_to]
    have ht : l.toFinset = l2.toFinset := by
      ext x
      simp [hp.mem_iff]
    rw [ht]

/-- A sample constructed base agent used by witnesses. -/
def sampleBase : BackgroundAgentBase :=
  (BackgroundAgentBase.init "session-1" "system_monitor" none).subscribe_to "a.b"

/-- Witness for C6: re-subscribing an already-subscribed pattern is a no-op,
and two permuted call sequences produce the same subscription set. -/
theorem subscriptions_form_a_set_witness :
    ("a.b" ∈ sampleBase.subscribed_messages
      ∧ sampleBase.subscribe_to "a.b" = sampleBase)
    ∧ (List.Perm ["a.b", "c"] ["c", "a.b"]
      ∧ ((["a.b", "c"].foldl BackgroundAgentBase.subscribe_to sampleBase).subscribed_messages =
          (["c", "a.b"].foldl BackgroundAgentBase.subscribe_to sampleBase).subscribed_messages)) :=
  ⟨⟨by decide, subscriptions_form_a_set.2.1 sampleBase "a.b" (by decide)⟩,
   ⟨List.Perm.swap "c" "a.b" [],
    subscriptions_form_a_set.2.2 sampleBase ["a.b", "c"] ["c", "a.b"]
      (List.Perm.swap "c" "a.b" [])⟩⟩

/-- C7: NotificationAgent is constructed with interval None, and its periodic
hook process leaves every field of the agent unchanged. -/
theorem interval_none_agent_has_no_periodic_effect :
    (∀ sid : String, (NotificationAgentState.init sid).interval = none)
    ∧ (∀ st : NotificationAgentState,
        st.process.notifications = st.notifications
        ∧ st.process.user_sessions = st.user_sessions
        ∧ st.process.subscribed_messages = st.subscribed_messages
        ∧ st.process.session_id = st.session_id
        ∧ st.process.interval = st.interval) :=
  ⟨fun _ => rfl, fun _ => ⟨rfl, rfl, rfl, rfl, rfl⟩⟩

/-- Whether an Except value is a normal return. -/
def exceptOk {ε α : Type} : Except ε α → Bool
  | .ok _ => true
  | .error _ => false

/-- A create message whose user id is an unhashable Python value: its
handler raises TypeError inside the try block. -/
def msgBadUserId : BackgroundMessage :=
  { message_type := "notification.create"
    data := some [("user_id", PyVal.vlist [PyVal.vint 1])]
    timestamp := PyVal.vnull
    sender := "system" }

/-- C4: agent hook faults are contained: for every state and input message
the message hooks of SystemMonitorAgent and NotificationAgent return
normally — and the containment is real, for the NotificationAgent body can
genuinely raise (an unhashable user id raises TypeError), yet the caught
hook still returns normally on that very message. -/
theorem process_message_faults_contained :
    (∀ (st : SystemMonitorAgentState) (msg : BackgroundMessage),
        exceptOk (st.processMessageCaught msg) = true)
    ∧ (∀ (st : NotificationAgentState) (msg : BackgroundMessage) (now : PyVal),
        exceptOk (st.processMessageCaught msg now) = true)
    ∧ exceptOk ((NotificationAgentState.init "s1").processMessageE msgBadUserId PyVal.vnull) = false
    ∧ exceptOk ((NotificationAgentState.init "s1").processMessageCaught msgBadUserId PyVal.vnull) = true := by
  refine ⟨fun st msg => ?_, fun st msg now => ?_, by decide, by decide⟩
  · unfold SystemMonitorAgentState.processMessageCaught
    cases st.processMessageE msg <;> rfl
  · unfold NotificationAgentState.processMessageCaught
    cases st.processMessageE msg now <;> rfl

/-- C5: payload-shape validation is the receiving agent's responsibility and
malformed payloads leave state unchanged: a "notification.create" message
whose data is None or lacks a "user_id" key leaves _notifications exactly as
it was. -/
theorem malformed_create_leaves_notifications_unchanged
    (st : NotificationAgentState) (msg : BackgroundMessage) (now : PyVal)
    (htype : msg.message_type = "notification.create")
    (hmal : msg.data = none ∨ ∃ d, msg.data = some d ∧ pyDictFind d "user_id" = none) :
    (st.processMessage msg now).notifications = st.notifications := by
  rcases hmal with hnone | ⟨d, hd, hfind⟩
  · simp [NotificationAgentState.processMessage, NotificationAgentState.processMessageE,
      createNotification, htype, hnone]
  · have hget : pyDictGet d "user_id" = PyVal.vnull := by
      simp [pyDictGet, pyDictGetD, hfind]
    by_cases he : d.isEmpty
    · simp [NotificationAgentState.processMessage, NotificationAgentState.processMessageE,
        createNotification, htype, hd, he]
    · simp [NotificationAgentState.processMessage, NotificationAgentState.processMessageE,
        createNotification, htype, hd, he, hget, PyVal.truthy]

/-- A create message that carries a title but no user id. -/
def msgNoUserId : BackgroundMessage :=
  { message_type := "notification.create"
    data := some [("title", PyVal.vstr "hello")]
    timestamp := PyVal.vnull
    sender := "system" }

/-- Witness for C5: a create message without a user_id key leaves the fresh
agent's store unchanged. -/
theorem malformed_create_leaves_notifications_unchanged_witness :
    msgNoUserId.message_type = "notification.create"
    ∧ pyDictFind [("title", PyVal.vstr "hello")] "user_id" = none
    ∧ ((NotificationAgentState.init "s1").processMessage msgNoUserId PyVal.vnull).notifications =
        (NotificationAgentState.init "s1").notifications :=
  ⟨rfl, by decide,
   malformed_create_leaves_notifications_unchanged (NotificationAgentState.init "s1")
     msgNoUserId PyVal.vnull rfl
     (Or.inr ⟨[("title", PyVal.vstr "hello")], rfl, by decide⟩)⟩

theorem smProcessMessage_eq (st : SystemMonitorAgentState) (msg : BackgroundMessage) :
    st.processMessage msg =
      if smBranch msg.message_type = SMBranch.userAction then handleUserAction st msg
      else st := by
  unfold SystemMonitorAgentState.processMessage SystemMonitorAgentState.processMessageE
  cases smBranch msg.message_type <;> simp

/-- C8: the active-user count never goes negative: if it is nonnegative
before a message is processed it is nonnegative afterwards, and a
"user.action.logout" message decrements it clamped at zero via max. -/
theorem active_users_never_negative
    (st : SystemMonitorAgentState) (msg : BackgroundMessage)
    (h : 0 ≤ st.system_stats.active_users) :
    0 ≤ (st.processMessage msg).system_stats.active_users
    ∧ (msg.message_type = "user.action.logout" →
        (st.processMessage msg).system_stats.active_users =
          max 0 (st.system_stats.active_users - 1)) := by
  constructor
  · rw [smProcessMessage_eq]
    by_cases hbr : smBranch msg.message_type = SMBranch.userAction
    · rw [if_pos hbr]
      simp only [handleUserAction]
      by_cases ha : pyReplace msg.message_type "user.action." "" = "login"
      · simp [ha]
        omega
      · by_cases ha2 : pyReplace msg.message_type "user.action." "" = "logout"
        · simp [ha, ha2]
        · simp [ha, ha2]
          exact h
    · rw [if_neg hbr]
      exact h
  · intro hm
    rw [smProcessMessage_eq]
    simp only [handleUserAction, hm]
    rw [if_pos (show smBranch "user.action.logout" = SMBranch.userAction from by decide)]
    rw [show pyReplace "user.action.logout" "user.action." "" = "logout" from by decide]
    rw [if_neg (show ¬(("logout" : String) = "login") from by decide), if_pos rfl]

/-- A freshly constructed SystemMonitorAgent. -/
def sampleMonitor : SystemMonitorAgentState :=
  SystemMonitorAgentState.init "session-1" (PyVal.vfloat 0)

/-- A logout user-action message. -/
def msgLogout : BackgroundMessage :=
  { message_type := "user.action.logout"
    data := none
    timestamp := PyVal.vnull
    sender := "system" }

/-- Witness for C8: a fresh monitor has a nonnegative count and a logout
message clamps the decrement at zero. -/
theorem active_users_never_negative_witness :
    0 ≤ sampleMonitor.system_stats.active_users
    ∧ (sampleMonitor.processMessage msgLogout).system_stats.active_users =
        max 0 (sampleMonitor.system_stats.active_users - 1) :=
  ⟨by decide,
   (active_users_never_negative sampleMonitor msgLogout (by decide)).2 rfl⟩

theorem dismissFirst_length (l : List Notification) (i : PyVal) :
    (dismissFirst l i).length = l.length := by
  induction l with
  | nil => rfl
  | cons n rest ih =>
      by_cases h : n.id = i
      · simp [dismissFirst, h]
      · simp [dismissFirst, h, ih]

theorem dismissFirst_no_match (l : List Notification) (i : PyVal)
    (h : ∀ n ∈ l, n.id ≠ i) : dismissFirst l i = l := by
  induction l with
  | nil => rfl
  | cons n rest ih =>
      have hn := h n (List.mem_cons_self n rest)
      simp [dismissFirst, hn, ih fun m hm => h m (List.mem_cons_of_mem n hm)]

theorem list_get_map {α β : Type} (f : α → β) (l : List α) (k : Nat) :
    (l.map f)[k]? = (l[k]?).map f := by
  induction l generalizing k with
  | nil => cases k <;> simp
  | cons a rest ih =>
      cases k with
      | zero => simp
      | succ k2 => simp [ih k2]

theorem dismissFirst_get (l : List Notification) (i : PyVal) (k : Nat) (n : Notification)
    (h : l[k]? = some n) :
    (dismissFirst l i)[k]? =
      some (if k = l.findIdx (fun m => decide (m.id = i)) then { n with dismissed := true }
            else n) := by
  induction l generalizing k with
  | nil => simp at h
  | cons m rest ih =>
      by_cases hm : m.id = i
      · have hf : (m :: rest).findIdx (fun x => decide (x.id = i)) = 0 := by
          simp [List.findIdx_cons, hm]
        cases k with
        | zero =>
            rw [List.getElem?_cons_zero] at h
            injection h with h2
            subst h2
            simp [dismissFirst, hm, hf]
        | succ k2 =>
            rw [List.getElem?_cons_succ] at h
            simp [dismissFirst, hm, hf, h]
      · have hf : (m :: rest).findIdx (fun x => decide (x.id = i)) =
            rest.findIdx (fun x => decide (x.id = i)) + 1 := by
          simp [List.findIdx_cons, hm]
        cases k with
        | zero =>
            rw [List.getElem?_cons_zero] at h
            injection h with h2
            subst h2
            simp [dismissFirst, hm, hf]
        | succ k2 =>
            rw [List.getElem?_cons_succ] at h
            have hrec := ih k2 h
            simp [dismissFirst, hm, hf, hrec]

theorem markRead_length (inc : Bool) (l : List Notification) :
    (markRead inc l).length = l.length := by
  unfold markRead
  split <;> simp

theorem markRead_get_true (l : List Notification) (k : Nat) (n : Notification)
    (h : l[k]? = some n) :
    (markRead true l)[k]? = some { n with read := true } := by
  simp [markRead, list_get_map, h]

theorem markRead_get_false (l : List Notification) (k : Nat) (n : Notification)
    (h : l[k]? = some n) :
    (markRead false l)[k]? =
      some (if n.dismissed then n else { n with read := true }) := by
  simp [markRead, list_get_map, h]

/-- C9: dismissing a notification touches at most one record: under a
"notification.dismiss" message carrying truthy user_id u and notification_id
i, every other user's list is untouched, a user or id absent from the store
leaves everything unchanged, and for the targeted user only the first
notification whose id equals i changes, and only in its dismissed field;
later notifications, even with the same id, are untouched. -/
theorem dismiss_touches_at_most_one_record
    (st : NotificationAgentState) (msg : BackgroundMessage) (now : PyVal)
    (d : PyDict) (u i : PyVal)
    (htype : msg.message_type = "notification.dismiss")
    (hdata : msg.data = some d)
    (hu : pyDictGet d "user_id" = u)
    (hi : pyDictGet d "notification_id" = i)
    (hut : u.truthy = true) (hit : i.truthy = true) (huh : u.hashable = true) :
    (∀ v : PyVal, v ≠ u →
        alistLookup (st.processMessage msg now).notifications v =
          alistLookup st.notifications v)
    ∧ (alistLookup st.notifications u = none → st.processMessage msg now = st)
    ∧ (∀ l : List Notification, alistLookup st.notifications u = some l →
        alistLookup (st.processMessage msg now).notifications u = some (dismissFirst l i)
        ∧ (dismissFirst l i).length = l.length
        ∧ ((∀ n ∈ l, n.id ≠ i) → dismissFirst l i = l)
        ∧ (∀ (k : Nat) (n : Notification), l[k]? = some n →
            (dismissFirst l i)[k]? =
              some (if k = l.findIdx (fun m => decide (m.id = i)) then
                      { n with dismissed := true }
                    else n)))
    ∧ (st.processMessage msg now).user_sessions = st.user_sessions := by
  have hne : d.isEmpty = false := by
    cases d with
    | nil =>
        exfalso
        rw [← hu] at hut
        simp [pyDictGet, pyDictGetD, pyDictFind, PyVal.truthy] at hut
    | cons p rest => rfl
  cases hL : alistLookup st.notifications u with
  | none =>
      have hst : st.processMessage msg now = st := by
        unfold NotificationAgentState.processMessage NotificationAgentState.processMessageE
          dismissNotification
        rw [htype, hdata]
        simp [hne, hu, hi, hut, hit, huh, hL]
      refine ⟨fun v hv => by rw [hst], fun _ => hst, fun l hl => ?_, by rw [hst]⟩
      exact absurd hl (by simp)
  | some l0 =>
      have hst : st.processMessage msg now =
          { st with notifications :=
              alistUpd st.notifications u fun l => dismissFirst l i } := by
        unfold NotificationAgentState.processMessage NotificationAgentState.processMessageE
          dismissNotification
        rw [htype, hdata]
        simp [hne, hu, hi, hut, hit, huh, hL]
      refine ⟨fun v hv => ?_, fun hn => ?_, fun l hl => ?_, by rw [hst]⟩
      · rw [hst]
        exact alistLookup_upd_ne st.notifications u v _ hv
      · exact absurd hn (by simp)
      · injection hl with hl2
        subst hl2
        refine ⟨?_, dismissFirst_length _ i, dismissFirst_no_match _ i,
          fun k n hk => dismissFirst_get _ i k n hk⟩
        rw [hst]
        show alistLookup (alistUpd st.notifications u _) u = _
        rw [alistLookup_upd_self, hL]
        rfl

/-- C10: listing notifications marks exactly the listed ones as read: under
a "notification.list" message for truthy user u, other users are untouched
and an absent user changes nothing; for u, with include_dismissed falsy
every non-dismissed notification gets read set true while dismissed ones
keep their previous read value, with include_dismissed truthy all get read
set true; no notification is added or removed. -/
theorem list_marks_exactly_listed_as_read
    (st : NotificationAgentState) (msg : BackgroundMessage) (now : PyVal)
    (d : PyDict) (u inc : PyVal)
    (htype : msg.message_type = "notification.list")
    (hdata : msg.data = some d)
    (hu : pyDictGet d "user_id" = u)
    (hinc : pyDictGetD d "include_dismissed" (PyVal.vbool false) = inc)
    (hut : u.truthy = true) (huh : u.hashable = true) :
    (∀ v : PyVal, v ≠ u →
        alistLookup (st.processMessage msg now).notifications v =
          alistLookup st.notifications v)
    ∧ (alistLookup st.notifications u = none → st.processMessage msg now = st)
    ∧ (∀ l : List Notification, alistLookup st.notifications u = some l →
        alistLookup (st.processMessage msg now).notifications u =
            some (markRead inc.truthy l)
        ∧ (markRead inc.truthy l).length = l.length
        ∧ (inc.truthy = false → ∀ (k : Nat) (n : Notification), l[k]? = some n →
            (markRead inc.truthy l)[k]? =
              some (if n.dismissed then n else { n with read := true }))
        ∧ (inc.truthy = true → ∀ (k : Nat) (n : Notification), l[k]? = some n →
            (markRead inc.truthy l)[k]? = some { n with read := true }))
    ∧ (st.processMessage msg now).user_sessions = st.user_sessions := by
  have hne : d.isEmpty = false := by
    cases d with
    | nil =>
        exfalso
        rw [← hu] at hut
        simp [pyDictGet, pyDictGetD, pyDictFind, PyVal.truthy] at hut
    | cons p rest => rfl
  cases hL : alistLookup st.notifications u with
  | none =>
      have hst : st.processMessage msg now = st := by
        unfold NotificationAgentState.processMessage NotificationAgentState.processMessageE
          listNotifications
        rw [htype, hdata]
        simp [hne, hu, hinc, hut, huh, hL]
      refine ⟨fun v hv => by rw [hst], fun _ => hst, fun l hl => ?_, by rw [hst]⟩
      exact absurd hl (by simp)
  | some l0 =>
      have hst : st.processMessage msg now =
          { st with notifications :=
              alistUpd st.notifications u (markRead inc.truthy) } := by
        unfold NotificationAgentState.processMessage NotificationAgentState.processMessageE
          listNotifications
        rw [htype, hdata]
        simp [hne, hu, hinc, hut, huh, hL]
      refine ⟨fun v hv => ?_, fun hn => ?_, fun l hl => ?_, by rw [hst]⟩
      · rw [hst]
        exact alistLookup_upd_ne st.notifications u v _ hv
      · exact absurd hn (by simp)
      · injection hl with hl2
        subst hl2
        refine ⟨?_, markRead_length _ _, fun hf k n hk => ?_, fun ht k n hk => ?_⟩
        · rw [hst]
          show alistLookup (alistUpd st.notifications u _) u = _
          rw [alistLookup_upd_self, hL]
          rfl
        · rw [hf]
          exact markRead_get_false _ k n hk
        · rw [ht]
          exact markRead_get_true _ k n hk

/-- A sample notification with id n1. -/
def notifA : Notification :=
  { id := .vstr "n1", title := .vstr "t1", message := .vstr "m1",
    ntype := .vstr "info", created_at := .vint 0, read := false, dismissed := false }

/-- A second notification that shares the id n1. -/
def notifB : Notification :=
  { notifA with title := .vstr "t2" }

/-- A dismissed notification with id n2. -/
def notifD : Notification :=
  { notifA with id := .vstr "n2", dismissed := true }

/-- A store with two users; u1 has two notifications with the same id. -/
def sampleStore : NotificationAgentState :=
  { NotificationAgentState.init "s1" with
      notifications := [(.vstr "u1", [notifA, notifB]), (.vstr "u2", [notifA])] }

/-- A dismiss message for u1 and id n1. -/
def msgDismiss : BackgroundMessage :=
  { message_type := "notification.dismiss"
    data := some [("user_id", .vstr "u1"), ("notification_id", .vstr "n1")]
    timestamp := .vnull
    sender := "system" }

/-- Witness for C9: dismissing n1 for u1 leaves u2's list untouched and
rewrites u1's list to dismissFirst of it. -/
theorem dismiss_touches_at_most_one_record_witness :
    (PyVal.vstr "u1").truthy = true
    ∧ (PyVal.vstr "n1").truthy = true
    ∧ (PyVal.vstr "u1").hashable = true
    ∧ alistLookup (sampleStore.processMessage msgDismiss PyVal.vnull).notifications
        (PyVal.vstr "u2") = alistLookup sampleStore.notifications (PyVal.vstr "u2")
    ∧ alistLookup (sampleStore.processMessage msgDismiss PyVal.vnull).notifications
        (PyVal.vstr "u1") = some (dismissFirst [notifA, notifB] (PyVal.vstr "n1")) := by
  have h := dismiss_touches_at_most_one_record sampleStore msgDismiss PyVal.vnull
    [("user_id", PyVal.vstr "u1"), ("notification_id", PyVal.vstr "n1")]
    (PyVal.vstr "u1") (PyVal.vstr "n1") rfl rfl rfl rfl (by decide) (by decide) (by decide)
  exact ⟨by decide, by decide, by decide, h.1 (PyVal.vstr "u2") (by decide),
    (h.2.2.1 [notifA, notifB] (by decide)).1⟩

/-- A store where u1 holds one live and one dismissed notification. -/
def sampleStore2 : NotificationAgentState :=
  { NotificationAgentState.init "s1" with
      notifications := [(.vstr "u1", [notifA, notifD])] }

/-- A list message for u1 that leaves include_dismissed absent. -/
def msgList : BackgroundMessage :=
  { message_type := "notification.list"
    data := some [("user_id", .vstr "u1")]
    timestamp := .vnull
    sender := "system" }

/-- Witness for C10: listing for u1 with include_dismissed absent rewrites
u1's list to markRead of it, and the dismissed entry keeps its read flag. -/
theorem list_marks_exactly_listed_as_read_witness :
    (PyVal.vstr "u1").truthy = true
    ∧ (PyVal.vbool false).truthy = false
    ∧ alistLookup sampleStore2.notifications (PyVal.vstr "u1") = some [notifA, notifD]
    ∧ alistLookup (sampleStore2.processMessage msgList PyVal.vnull).notifications
        (PyVal.vstr "u1") = some (markRead (PyVal.vbool false).truthy [notifA, notifD])
    ∧ (markRead (PyVal.vbool false).truthy [notifA, notifD])[1]? =
        some (if notifD.dismissed then notifD else { notifD with read := true }) := by
  have h := list_marks_exactly_listed_as_read sampleStore2 msgList PyVal.vnull
    [("user_id", PyVal.vstr "u1")] (PyVal.vstr "u1") (PyVal.vbool false)
    rfl rfl rfl rfl (by decide) (by decide)
  have h3 := h.2.2.1 [notifA, notifD] (by decide)
  exact ⟨by decide, by decide, by decide, h3.1, h3.2.2.1 (by decide) 1 notifD (by decide)⟩
